import Mathlib

/-!
Shallow embedding of the browser-side logic of Smart-QGEN:
`app/static/js/configure.js` (configuration builder) and
`NEP_QGEN/app/static/js/upload.js` (upload session manager).
DOM side effects are reflected as data in explicit outcome records;
notifications are `showNotification(message, kind)` pairs.
-/

/-- A user-visible notification, as passed to `showNotification(message, kind)`. -/
structure Notification where
  message : String
  kind : String
deriving Repr, DecidableEq

namespace Configure

/-- One question set, as pushed by `addQuestionSet` in configure.js:
`{ id: setIndex, type: 'short', marks: 5, count: 1 }`.  `marks` and `count`
are JS integers (from `parseInt` on the select/input values). -/
structure QuestionSet where
  id : Nat
  type : String
  marks : Int
  count : Int
deriving Repr, DecidableEq

/-- The module-level mutable state of configure.js:
`let questionSets = []` and `let totalMarks = 0`. -/
structure ConfigState where
  questionSets : List QuestionSet
  totalMarks : Int
deriving Repr, DecidableEq

/-- The pure computation inside `updateTotalMarks`:
`questionSets.reduce((sum, set) => sum + (set.marks * set.count), 0)`. -/
def computeTotal (sets : List QuestionSet) : Int :=
  sets.foldl (fun sum s => sum + s.marks * s.count) 0

/-- `updateTotalMarks()`: recompute `totalMarks` from the live sets
(the DOM display update is presentational and not modelled). -/
def updateTotalMarks (st : ConfigState) : ConfigState :=
  { st with totalMarks := computeTotal st.questionSets }

/-- `addQuestionSet()`: append a set with `id = questionSets.length`,
defaults type `short`, marks 5, count 1, then `updateTotalMarks()`. -/
def addQuestionSet (st : ConfigState) : ConfigState :=
  let setIndex := st.questionSets.length
  let questionSet : QuestionSet := ⟨setIndex, "short", 5, 1⟩
  updateTotalMarks { st with questionSets := st.questionSets ++ [questionSet] }

/-- A field write `questionSets[setIndex][property] = value`, for the three
properties wired by the inline handlers: `type`, `marks`, `count`. -/
inductive FieldUpdate where
  | ftype (v : String)
  | fmarks (v : Int)
  | fcount (v : Int)
deriving Repr, DecidableEq

/-- Apply one field write to a question set. -/
def applyField (s : QuestionSet) : FieldUpdate → QuestionSet
  | .ftype v => { s with type := v }
  | .fmarks v => { s with marks := v }
  | .fcount v => { s with count := v }

/-- `window.updateQuestionSet(setIndex, property, value)`: guarded by the JS
truthiness test `if (questionSets[setIndex])`, it writes the field of the
entry at array position `setIndex` and calls `updateTotalMarks()`;
otherwise nothing happens. -/
def updateQuestionSet (st : ConfigState) (setIndex : Nat) (f : FieldUpdate) :
    ConfigState :=
  match st.questionSets[setIndex]? with
  | none => st
  | some s =>
      updateTotalMarks
        { st with questionSets := st.questionSets.set setIndex (applyField s f) }

/-- `window.removeQuestionSet(setIndex)`: if `questionSets.length <= 1`,
show an error notification and return unchanged; otherwise
`questionSets = questionSets.filter(set => set.id !== setIndex)` and
`updateTotalMarks()`.  Returns the new state and the notification, if any. -/
def removeQuestionSet (st : ConfigState) (setIndex : Nat) :
    ConfigState × Option Notification :=
  if st.questionSets.length ≤ 1 then
    (st, some ⟨"At least one question set is required.", "error"⟩)
  else
    (updateTotalMarks
      { st with questionSets := st.questionSets.filter (fun s => s.id ≠ setIndex) },
     none)

/-- One user interaction on the configuration page. -/
inductive ConfigOp where
  | add
  | remove (setIndex : Nat)
  | update (setIndex : Nat) (f : FieldUpdate)
deriving Repr, DecidableEq

/-- Apply one interaction (dropping the notification of a rejected removal). -/
def applyOp (st : ConfigState) : ConfigOp → ConfigState
  | .add => addQuestionSet st
  | .remove i => (removeQuestionSet st i).1
  | .update i f => updateQuestionSet st i f

/-- Run a sequence of interactions. -/
def runOps (st : ConfigState) (ops : List ConfigOp) : ConfigState :=
  ops.foldl applyOp st

/-- The state after page load: the `DOMContentLoaded` handler calls
`addQuestionSet()` once on the empty initial state. -/
def initState : ConfigState :=
  addQuestionSet ⟨[], 0⟩

/-- JS string truthiness for `v || fallback`: the empty string is falsy. -/
def jsOr (v fallback : String) : String :=
  if v = "" then fallback else v

/-- The pass/fail predicate `Math.abs(totalMarks - targetMarks) <= 5`,
appearing verbatim at configure.js:180 (submission gate, negated) and
configure.js:279 (visual indicator).  The spec names it `validateTotal`. -/
def validateTotal (totalMarks targetMarks : Int) : Bool :=
  (totalMarks - targetMarks).natAbs ≤ 5

/-- `updateMarksValidation()`: the class written to the total-marks display,
green when `Math.abs(totalMarks - targetMarks) <= 5`, red otherwise. -/
def updateMarksValidation (totalMarks targetMarks : Int) : String :=
  if (totalMarks - targetMarks).natAbs ≤ 5 then
    "text-green-600 font-bold"
  else
    "text-red-600 font-bold"

/-- `JSON.stringify` of one element of `questionConfig.question_sets`:
the object literal `{ type: set.type, marks: set.marks, count: set.count }`
built in `handleSubmit` (configure.js:198-202).  The `id` field is not part
of the literal.  The enum `type` strings contain no characters needing JSON
escaping. -/
def serializeQuestionSet (s : QuestionSet) : String :=
  "\x7b\"type\":\"" ++ s.type ++ "\",\"marks\":" ++ toString s.marks ++
    ",\"count\":" ++ toString s.count ++ "\x7d"

/-- `JSON.stringify(questionConfig)` for
`questionConfig = { question_sets: questionSets.map(...) }`. -/
def serializeConfig (sets : List QuestionSet) : String :=
  "\x7b\"question_sets\":[" ++
    String.intercalate "," (sets.map serializeQuestionSet) ++ "]\x7d"

/-- The DOM inputs read by `handleSubmit`.  `sessionId` is `none` when the
hidden `session_id` input is absent.  The `total_marks` select holds a fixed
decimal numeral, so its raw value is `toString targetMarks` and
`parseInt` of it is `targetMarks`. -/
structure SubmitEnv where
  sessionId : Option String
  targetMarks : Int
  title : String
  subject : String
  difficulty : String
  priorityTopics : String
  instructions : String
deriving Repr, DecidableEq

/-- What `handleSubmit` does before any asynchronous continuation runs:
either it returns early after `showNotification(..., 'error')` (no `fetch`),
or it issues `fetch` to the session-scoped URL with the listed form fields. -/
inductive SubmitOutcome where
  | abort (note : Notification)
  | request (url : String) (body : List (String × String))
deriving Repr, DecidableEq

/-- `true` exactly when the outcome issued a network request. -/
def SubmitOutcome.issuesRequest : SubmitOutcome → Bool
  | .abort _ => false
  | .request _ _ => true

/-- `handleSubmit(e)` (configure.js:158-230), up to dispatching `fetch`:
(a) missing or empty `session_id` → session-expired error, return;
(b) `questionSets.length === 0` → error, return;
(c) `Math.abs(totalMarks - targetMarks) > 5` → error citing both, return;
otherwise build the `FormData` (with the `||` fallbacks of lines 189-194)
and POST it to `/generate/` ++ sessionId. -/
def handleSubmit (st : ConfigState) (env : SubmitEnv) : SubmitOutcome :=
  match env.sessionId with
  | none => .abort ⟨"Session expired. Please start over.", "error"⟩
  | some sessionId =>
      if sessionId = "" then
        .abort ⟨"Session expired. Please start over.", "error"⟩
      else if st.questionSets.length = 0 then
        .abort ⟨"Please add at least one question set.", "error"⟩
      else if 5 < (st.totalMarks - env.targetMarks).natAbs then
        .abort ⟨"Total marks (" ++ toString st.totalMarks ++
          ") should be close to target marks (" ++ toString env.targetMarks ++
          ").", "error"⟩
      else
        .request ("/generate/" ++ sessionId)
          [("title", jsOr env.title "Generated Paper"),
           ("subject", jsOr env.subject "General Subject"),
           ("total_marks", jsOr (toString env.targetMarks) "100"),
           ("difficulty", jsOr env.difficulty "5"),
           ("priority_topics", jsOr env.priorityTopics ""),
           ("instructions", jsOr env.instructions ""),
           ("question_config", serializeConfig st.questionSets)]

end Configure

/-- The JSON body the two endpoints answer with:
`{status: ..., redirect?: ..., message?: ...}`. -/
structure ResponseBody where
  status : String
  redirect : String
  message : Option String
deriving Repr, DecidableEq

/-- A fetch `Response` as the two handlers consume it: `ok` is the 2xx
flag, `status`/`statusText` feed the HTTP error message, and `body` is the
parsed JSON (`none` when `response.json()` rejects). -/
structure HttpResponse where
  ok : Bool
  status : Nat
  statusText : String
  body : Option ResponseBody
deriving Repr, DecidableEq

/-- Stands for the engine-supplied `error.message` of a JSON parse failure;
its exact text is environment-dependent and never inspected by the code. -/
def jsonParseErrorMessage : String := "SyntaxError"

namespace Upload

/-- One entry of `selectedFiles`: the fields of a DOM `File` the script
reads (`name`, `size`, `type`). -/
structure JsFile where
  name : String
  size : Nat
  ftype : String
deriving Repr, DecidableEq

/-- `Array.prototype.splice(start, 1)` per ECMAScript: a negative `start`
counts from the end (clamped to 0), a too-large `start` is clamped to the
length (removing nothing); at most one element is removed. -/
def spliceRemoveOne (l : List JsFile) (start : Int) : List JsFile :=
  let len : Int := l.length
  let actual : Nat :=
    if start < 0 then (max (len + start) 0).toNat else (min start len).toNat
  l.take actual ++ l.drop (actual + 1)

/-- `window.removeFile(index)` (upload.js:166-170):
`selectedFiles.splice(index, 1)` (preview re-render and button enablement
are presentational). -/
def removeFile (files : List JsFile) (index : Int) : List JsFile :=
  spliceRemoveOne files index

/-- One tick of the upload progress simulation (upload.js:130-134):
`progress += Math.random() * 15; if (progress > 90) progress = 90`.
`r` stands for the random increment of that tick. -/
def uploadProgressStep (progress r : ℚ) : ℚ :=
  let p := progress + r
  if 90 < p then 90 else p

/-- The simulated upload progress after the ticks with increments `rs`,
starting from `let progress = 0`. -/
def runUploadTicks (rs : List ℚ) : ℚ :=
  rs.foldl uploadProgressStep 0

/-- The observable effects of the upload response continuations
(upload.js:140-162). -/
structure UploadOutcome where
  timerCancelled : Bool
  barWidth : Option ℚ
  note : Notification
  progressHidden : Bool
  uploadReenabled : Bool
  navigatesTo : Option String
deriving Repr, DecidableEq

/-- The `.then(response => response.json()).then(data => ...).catch(...)`
chain of `uploadFiles`.  The HTTP status is never examined: an unparseable
body goes straight to `.catch`; a parsed body reaches the `data` handler,
which cancels the timer, forces the bar to 100%, and branches on
`data.status === 'success'` (the failure branch throws
`data.message || 'Upload failed'`, caught below, which hides the progress
UI and re-enables the button). -/
def handleUploadResponse (r : HttpResponse) : UploadOutcome :=
  match r.body with
  | none =>
      ⟨true, none, ⟨"Upload failed: " ++ jsonParseErrorMessage, "error"⟩,
       true, true, none⟩
  | some data =>
      if data.status = "success" then
        ⟨true, some 100, ⟨"Files uploaded successfully!", "success"⟩,
         false, false, some data.redirect⟩
      else
        ⟨true, some 100,
         ⟨"Upload failed: " ++ data.message.getD "Upload failed", "error"⟩,
         true, true, none⟩

end Upload

namespace Configure

/-- One tick of the generation progress simulation (configure.js:218-224):
`progress += Math.random() * 10; if (progress > 80) progress = 80`. -/
def generateProgressStep (progress r : ℚ) : ℚ :=
  let p := progress + r
  if 80 < p then 80 else p

/-- The simulated generation progress after the ticks with increments `rs`,
starting from `let progress = 0`. -/
def runGenerateTicks (rs : List ℚ) : ℚ :=
  rs.foldl generateProgressStep 0

/-- The observable effects of the generation response continuations
(configure.js:231-262). -/
structure GenerateOutcome where
  timerCancelled : Bool
  barWidth : Option ℚ
  note : Notification
  modalHidden : Bool
  navigatesTo : Option String
deriving Repr, DecidableEq

/-- The `fetch(/generate/...)` continuation chain of `handleSubmit`
(configure.js:231-262): a non-ok response throws
`HTTP status: statusText` before the body is parsed; a parsed body
cancels the timer, forces the bar to 100%, and branches on
`data.status === 'success'`; every path through `.catch` cancels the
timer, shows the error, and hides the loading modal. -/
def handleGenerateResponse (r : HttpResponse) : GenerateOutcome :=
  if r.ok = false then
    ⟨true, none,
     ⟨"Generation failed: HTTP " ++ toString r.status ++ ": " ++ r.statusText,
      "error"⟩, true, none⟩
  else
    match r.body with
    | none =>
        ⟨true, none,
         ⟨"Generation failed: " ++ jsonParseErrorMessage, "error"⟩, true, none⟩
    | some data =>
        if data.status = "success" then
          ⟨true, some 100,
           ⟨"Question paper generated successfully!", "success"⟩,
           false, some data.redirect⟩
        else
          ⟨true, some 100,
           ⟨"Generation failed: " ++ data.message.getD "Generation failed",
            "error"⟩, true, none⟩

end Configure

-- sanity examples (concrete evaluations of the embedding)
example : Configure.initState.questionSets = [⟨0, "short", 5, 1⟩] := by rfl
example : Configure.initState.totalMarks = 5 := by rfl
example :
    (Configure.runOps Configure.initState [.add]).questionSets.map
      Configure.QuestionSet.id = [0, 1] := by rfl
example :
    (Configure.runOps Configure.initState [.add, .remove 0, .add]).questionSets.map
      Configure.QuestionSet.id = [1, 1] := by rfl
example :
    Configure.serializeConfig [⟨0, "short", 5, 4⟩] =
      "\x7b\"question_sets\":[\x7b\"type\":\"short\",\"marks\":5,\"count\":4\x7d]\x7d" := by
  rfl
example :
    Upload.removeFile [⟨"a", 1, "application/pdf"⟩, ⟨"b", 2, "application/pdf"⟩] (-1) =
      [⟨"a", 1, "application/pdf"⟩] := by rfl

namespace Configure

/-- The maintained running total agrees with a fresh recomputation. -/
def TotalInv (st : ConfigState) : Prop :=
  st.totalMarks = computeTotal st.questionSets

lemma computeTotal_go (sets : List QuestionSet) (a : Int) :
    sets.foldl (fun sum s => sum + s.marks * s.count) a =
      a + (sets.map (fun s => s.marks * s.count)).sum := by
  induction sets generalizing a with
  | nil => simp
  | cons x xs ih => simp [List.foldl, ih]; ring

lemma computeTotal_eq_sum (sets : List QuestionSet) :
    computeTotal sets = (sets.map (fun s => s.marks * s.count)).sum := by
  simpa using computeTotal_go sets 0

lemma totalInv_updateTotalMarks (st : ConfigState) :
    TotalInv (updateTotalMarks st) := by
  simp [TotalInv, updateTotalMarks]

lemma totalInv_applyOp (st : ConfigState) (op : ConfigOp) (h : TotalInv st) :
    TotalInv (applyOp st op) := by
  cases op with
  | add => exact totalInv_updateTotalMarks _
  | remove i =>
      by_cases hl : st.questionSets.length ≤ 1
      · simpa [applyOp, removeQuestionSet, hl] using h
      · simp only [applyOp, removeQuestionSet, if_neg hl]
        exact totalInv_updateTotalMarks _
  | update i f =>
      cases hg : st.questionSets[i]? with
      | none => simpa [applyOp, updateQuestionSet, hg] using h
      | some s =>
          simp only [applyOp, updateQuestionSet, hg]
          exact totalInv_updateTotalMarks _

lemma totalInv_runOps (ops : List ConfigOp) (st : ConfigState) (h : TotalInv st) :
    TotalInv (runOps st ops) := by
  induction ops generalizing st with
  | nil => exact h
  | cons op ops ih => exact ih _ (totalInv_applyOp st op h)

lemma totalInv_initState : TotalInv initState :=
  totalInv_updateTotalMarks _

end Configure

/-- C1: `handleSubmit` checks its preconditions in order — session identifier
present and non-empty, at least one question set, total within 5 of target —
and on the first violated one aborts with the corresponding notification
(the tolerance message citing both the actual total and the target), issuing
no network request; conversely a request is only issued when all three hold. -/
theorem Configure.handleSubmit_precondition_order
    (st : Configure.ConfigState) (env : Configure.SubmitEnv) :
    ((env.sessionId = none ∨ env.sessionId = some "") →
      Configure.handleSubmit st env =
        .abort ⟨"Session expired. Please start over.", "error"⟩) ∧
    (∀ sid, env.sessionId = some sid → sid ≠ "" → st.questionSets.length = 0 →
      Configure.handleSubmit st env =
        .abort ⟨"Please add at least one question set.", "error"⟩) ∧
    (∀ sid, env.sessionId = some sid → sid ≠ "" → st.questionSets.length ≠ 0 →
      5 < (st.totalMarks - env.targetMarks).natAbs →
      Configure.handleSubmit st env =
        .abort ⟨"Total marks (" ++ toString st.totalMarks ++
          ") should be close to target marks (" ++ toString env.targetMarks ++
          ").", "error"⟩) ∧
    ((Configure.handleSubmit st env).issuesRequest = true →
      env.sessionId ≠ none ∧ env.sessionId ≠ some "" ∧
      st.questionSets.length ≠ 0 ∧
      (st.totalMarks - env.targetMarks).natAbs ≤ 5) := by
  refine ⟨?_, ?_, ?_, ?_⟩
  · rintro (h | h) <;> simp [Configure.handleSubmit, h]
  · rintro sid hsid hne hlen
    simp [Configure.handleSubmit, hsid, hne, hlen]
  · rintro sid hsid hne hlen htol
    simp [Configure.handleSubmit, hsid, hne, hlen, htol, Nat.not_le.mpr htol]
  · intro hreq
    cases hs : env.sessionId with
    | none =>
        simp [Configure.handleSubmit, hs, Configure.SubmitOutcome.issuesRequest]
          at hreq
    | some sid =>
        by_cases he : sid = ""
        · subst he
          simp [Configure.handleSubmit, hs,
            Configure.SubmitOutcome.issuesRequest] at hreq
        · by_cases hl : st.questionSets.length = 0
          · simp [Configure.handleSubmit, hs, he, hl,
              Configure.SubmitOutcome.issuesRequest] at hreq
          · by_cases ht : 5 < (st.totalMarks - env.targetMarks).natAbs
            · simp [Configure.handleSubmit, hs, he, hl, ht,
                Configure.SubmitOutcome.issuesRequest] at hreq
            · refine ⟨by simp [hs], by simp [hs, he], hl, by omega⟩

/-- Witness for C1: with one 10-question 5-mark set (total 50) and target
100, submission aborts with the message citing 50 and 100. -/
theorem Configure.handleSubmit_precondition_order_witness :
    Configure.handleSubmit ⟨[⟨0, "short", 5, 10⟩], 50⟩
        ⟨some "abc123", 100, "", "", "", "", ""⟩ =
      .abort ⟨"Total marks (50) should be close to target marks (100).",
        "error"⟩ := by
  have h := (Configure.handleSubmit_precondition_order
    ⟨[⟨0, "short", 5, 10⟩], 50⟩ ⟨some "abc123", 100, "", "", "", "", ""⟩).2.2.1
    "abc123" rfl (by decide) (by decide) (by decide)
  simpa using h

/-- C2: after any sequence of add/remove/update interactions from the page-load
state that leaves at least one set, the maintained running total `totalMarks`
equals the sum of `marks × count` over exactly the live question sets. -/
theorem Configure.totalMarks_eq_sum_of_live_sets (ops : List Configure.ConfigOp)
    (h : 1 ≤ (Configure.runOps Configure.initState ops).questionSets.length) :
    (Configure.runOps Configure.initState ops).totalMarks =
      ((Configure.runOps Configure.initState ops).questionSets.map
        (fun s => s.marks * s.count)).sum := by
  have h1 : (Configure.runOps Configure.initState ops).totalMarks =
      Configure.computeTotal
        (Configure.runOps Configure.initState ops).questionSets :=
    Configure.totalInv_runOps ops Configure.initState Configure.totalInv_initState
  rw [h1, Configure.computeTotal_eq_sum]

/-- Witness for C2: after one extra `addQuestionSet` the running total is the
sum over the two live sets. -/
theorem Configure.totalMarks_eq_sum_of_live_sets_witness :
    (Configure.runOps Configure.initState [.add]).totalMarks =
      ((Configure.runOps Configure.initState [.add]).questionSets.map
        (fun s => s.marks * s.count)).sum :=
  Configure.totalMarks_eq_sum_of_live_sets [.add] (by decide)

/-- C3: the predicate `|totalMarks − targetMarks| ≤ 5` is `validateTotal`; a
difference of exactly 5 passes and 6 fails; the same predicate selects the
green/red visual indicator class and, once the session and non-empty-set
preconditions hold, gates whether `handleSubmit` issues the network request. -/
theorem Configure.validateTotal_drives_indicator_and_gate
    (total target : Int) (st : Configure.ConfigState)
    (env : Configure.SubmitEnv) (sid : String)
    (hsid : env.sessionId = some sid) (hne : sid ≠ "")
    (hlen : st.questionSets.length ≠ 0)
    (htot : st.totalMarks = total) (htar : env.targetMarks = target) :
    (Configure.validateTotal total target = true ↔ (total - target).natAbs ≤ 5) ∧
    ((total - target).natAbs = 5 → Configure.validateTotal total target = true) ∧
    ((total - target).natAbs = 6 → Configure.validateTotal total target = false) ∧
    (Configure.validateTotal total target = true ↔
      Configure.updateMarksValidation total target = "text-green-600 font-bold") ∧
    (Configure.validateTotal total target = false ↔
      Configure.updateMarksValidation total target = "text-red-600 font-bold") ∧
    ((Configure.handleSubmit st env).issuesRequest = true ↔
      Configure.validateTotal total target = true) := by
  subst htot htar
  refine ⟨by simp [Configure.validateTotal], ?_, ?_, ?_, ?_, ?_⟩
  · intro h5
    simp [Configure.validateTotal, h5]
  · intro h6
    simp [Configure.validateTotal, h6]
  · by_cases h : (st.totalMarks - env.targetMarks).natAbs ≤ 5 <;>
      simp [Configure.validateTotal, Configure.updateMarksValidation, h]
  · by_cases h : (st.totalMarks - env.targetMarks).natAbs ≤ 5 <;>
      simp [Configure.validateTotal, Configure.updateMarksValidation, h] <;>
      decide
  · by_cases h : 5 < (st.totalMarks - env.targetMarks).natAbs
    · have hv : Configure.validateTotal st.totalMarks env.targetMarks = false := by
        simp [Configure.validateTotal]; omega
      simp [Configure.handleSubmit, hsid, hne, hlen, h, hv,
        Configure.SubmitOutcome.issuesRequest]
    · have hv : Configure.validateTotal st.totalMarks env.targetMarks = true := by
        simp [Configure.validateTotal]; omega
      simp [Configure.handleSubmit, hsid, hne, hlen, h, hv,
        Configure.SubmitOutcome.issuesRequest]

/-- Witness for C3: a total of 105 against target 100 (difference exactly 5)
passes the gate and the request is issued; a difference of 6 fails. -/
theorem Configure.validateTotal_drives_indicator_and_gate_witness :
    (Configure.handleSubmit ⟨[⟨0, "short", 5, 21⟩], 105⟩
        ⟨some "abc123", 100, "", "", "", "", ""⟩).issuesRequest = true ∧
    Configure.validateTotal 106 100 = false := by
  refine ⟨?_, by decide⟩
  exact (Configure.validateTotal_drives_indicator_and_gate 105 100
    ⟨[⟨0, "short", 5, 21⟩], 105⟩ ⟨some "abc123", 100, "", "", "", "", ""⟩
    "abc123" rfl (by decide) (by decide) rfl rfl).2.2.2.2.2.mpr (by decide)

/-- C4: `removeQuestionSet` on a state with exactly one question set is
rejected with the user-visible error and leaves the state (in particular
the list of sets) unchanged, for every argument. -/
theorem Configure.removeQuestionSet_sole_set_rejected
    (st : Configure.ConfigState) (i : Nat) (h : st.questionSets.length = 1) :
    Configure.removeQuestionSet st i =
      (st, some ⟨"At least one question set is required.", "error"⟩) := by
  simp [Configure.removeQuestionSet, h]

/-- Witness for C4: removing the only set of the initial state is rejected
and changes nothing. -/
theorem Configure.removeQuestionSet_sole_set_rejected_witness :
    Configure.removeQuestionSet Configure.initState 0 =
      (Configure.initState,
       some ⟨"At least one question set is required.", "error"⟩) :=
  Configure.removeQuestionSet_sole_set_rejected Configure.initState 0 (by rfl)

/-- Counterexample to C5: after add, remove(0), add from the page-load state,
the two live sets both carry id 1 (ids are reused); moreover after add,
remove(0) the set with id 1 is live, yet `updateQuestionSet` with argument 1
is a no-op, because it indexes by array position, not by id. -/
theorem Configure.questionSet_id_reuse_counterexample :
    (Configure.runOps Configure.initState [.add, .remove 0, .add]).questionSets.map
        Configure.QuestionSet.id = [1, 1] ∧
    (Configure.runOps Configure.initState [.add, .remove 0]).questionSets.map
        Configure.QuestionSet.id = [1] ∧
    Configure.updateQuestionSet
        (Configure.runOps Configure.initState [.add, .remove 0]) 1 (.fmarks 10) =
      Configure.runOps Configure.initState [.add, .remove 0] := by
  exact ⟨by rfl, by rfl, by rfl⟩

/-- C5 as amended: `addQuestionSet` assigns the new set an id equal to the
current sequence length (which can collide with a live id after removals),
and `updateQuestionSet(i, field, value)` mutates the set at array position
`i` — a no-op exactly when no entry exists at that position. -/
theorem Configure.addQuestionSet_id_and_update_by_position
    (st : Configure.ConfigState) (i : Nat) (f : Configure.FieldUpdate) :
    ((Configure.addQuestionSet st).questionSets.map Configure.QuestionSet.id =
      st.questionSets.map Configure.QuestionSet.id ++ [st.questionSets.length]) ∧
    (∀ h : i < st.questionSets.length,
      (Configure.updateQuestionSet st i f).questionSets =
        st.questionSets.set i
          (Configure.applyField (st.questionSets.get ⟨i, h⟩) f)) ∧
    (st.questionSets.length ≤ i → Configure.updateQuestionSet st i f = st) := by
  refine ⟨?_, ?_, ?_⟩
  · simp [Configure.addQuestionSet, Configure.updateTotalMarks]
  · intro h
    simp [Configure.updateQuestionSet, List.getElem?_eq_getElem h,
      Configure.updateTotalMarks, List.get_eq_getElem]
  · intro h
    simp [Configure.updateQuestionSet, List.getElem?_eq_none h]

/-- Witness for C5 (amended): on the page-load state, the added set gets
id 1; updating position 0 mutates the sole set; position 5 is a no-op. -/
theorem Configure.addQuestionSet_id_and_update_by_position_witness :
    (Configure.addQuestionSet Configure.initState).questionSets.map
        Configure.QuestionSet.id = [0, 1] ∧
    (Configure.updateQuestionSet Configure.initState 0 (.fcount 4)).questionSets =
      [⟨0, "short", 5, 4⟩] ∧
    Configure.updateQuestionSet Configure.initState 5 (.fcount 4) =
      Configure.initState := by
  have h0 := Configure.addQuestionSet_id_and_update_by_position
    Configure.initState 0 (.fcount 4)
  have h5 := Configure.addQuestionSet_id_and_update_by_position
    Configure.initState 5 (.fcount 4)
  exact ⟨h0.1.trans (by decide), (h0.2.1 (by decide)).trans (by decide),
    h5.2.2 (by decide)⟩

/-- C6: with more than one live set, `removeQuestionSet(i)` filters by id —
every live set whose id equals `i` is removed, with no rejection — so in the
reachable state `[add, remove 0, add]` (two live sets, both id 1) a single
call removes both sets and leaves the list empty, breaking the minimum-one
invariant. -/
theorem Configure.removeQuestionSet_filters_by_id (st : Configure.ConfigState)
    (i : Nat) (h : 2 ≤ st.questionSets.length) :
    ((Configure.removeQuestionSet st i).1.questionSets =
      st.questionSets.filter (fun s => s.id ≠ i)) ∧
    ((Configure.removeQuestionSet st i).2 = none) ∧
    (∀ q ∈ (Configure.removeQuestionSet st i).1.questionSets, q.id ≠ i) ∧
    ((Configure.runOps Configure.initState [.add, .remove 0, .add]).questionSets.length = 2) ∧
    ((Configure.removeQuestionSet
        (Configure.runOps Configure.initState [.add, .remove 0, .add]) 1).1.questionSets = [] ∧
     (Configure.removeQuestionSet
        (Configure.runOps Configure.initState [.add, .remove 0, .add]) 1).2 = none) := by
  have hl : ¬ st.questionSets.length ≤ 1 := by omega
  refine ⟨?_, ?_, ?_, by decide, by decide, by decide⟩
  · simp [Configure.removeQuestionSet, hl, Configure.updateTotalMarks]
  · simp [Configure.removeQuestionSet, hl]
  · intro q hq
    simp [Configure.removeQuestionSet, hl, Configure.updateTotalMarks,
      List.mem_filter] at hq
    exact hq.2

/-- Witness for C6: removing id 0 from the two-set state keeps exactly the
set with id 1. -/
theorem Configure.removeQuestionSet_filters_by_id_witness :
    (Configure.removeQuestionSet
        (Configure.runOps Configure.initState [.add]) 0).1.questionSets =
      [⟨1, "short", 5, 1⟩] := by
  have h := Configure.removeQuestionSet_filters_by_id
    (Configure.runOps Configure.initState [.add]) 0 (by decide)
  exact h.1.trans (by decide)

/-- C7: when all preconditions pass, `handleSubmit` issues the request to the
session-scoped endpoint with a `question_config` field equal to the JSON
document with key `question_sets` listing, per live set in order, exactly
`type`, `marks`, `count`; the `id` is not transmitted (the serialization is
id-independent); for a single short-answer set with 5 marks and count 4 the
field is exactly the expected JSON text. -/
theorem Configure.question_config_serialization
    (st : Configure.ConfigState) (env : Configure.SubmitEnv) (sid : String)
    (hsid : env.sessionId = some sid) (hne : sid ≠ "")
    (hlen : st.questionSets.length ≠ 0)
    (htol : (st.totalMarks - env.targetMarks).natAbs ≤ 5) :
    (∃ fls, Configure.handleSubmit st env = .request ("/generate/" ++ sid) fls ∧
      fls.lookup "question_config" =
        some (Configure.serializeConfig st.questionSets)) ∧
    (∀ a b : Configure.QuestionSet, a.type = b.type → a.marks = b.marks →
      a.count = b.count →
      Configure.serializeQuestionSet a = Configure.serializeQuestionSet b) ∧
    (Configure.serializeConfig [⟨0, "short", 5, 4⟩] =
      "\x7b\"question_sets\":[\x7b\"type\":\"short\",\"marks\":5,\"count\":4\x7d]\x7d") := by
  have hnl : ¬ 5 < (st.totalMarks - env.targetMarks).natAbs := by omega
  refine ⟨⟨[("title", jsOr env.title "Generated Paper"),
    ("subject", jsOr env.subject "General Subject"),
    ("total_marks", jsOr (toString env.targetMarks) "100"),
    ("difficulty", jsOr env.difficulty "5"),
    ("priority_topics", jsOr env.priorityTopics ""),
    ("instructions", jsOr env.instructions ""),
    ("question_config", Configure.serializeConfig st.questionSets)],
    ?_, by rfl⟩, ?_, by rfl⟩
  · simp [Configure.handleSubmit, hsid, hne, hlen, hnl]
  · intro a b h1 h2 h3
    simp [Configure.serializeQuestionSet, h1, h2, h3]

/-- Witness for C7: the end-to-end scenario — one short-answer set, 5 marks,
count 4, target 20 — issues the request and serializes exactly the expected
`question_config` JSON. -/
theorem Configure.question_config_serialization_witness :
    ∃ fls, Configure.handleSubmit ⟨[⟨0, "short", 5, 4⟩], 20⟩
        ⟨some "abc123", 20, "", "", "", "", ""⟩ =
        .request "/generate/abc123" fls ∧
      fls.lookup "question_config" =
        some "\x7b\"question_sets\":[\x7b\"type\":\"short\",\"marks\":5,\"count\":4\x7d]\x7d" := by
  obtain ⟨fls, h1, h2⟩ := (Configure.question_config_serialization
    ⟨[⟨0, "short", 5, 4⟩], 20⟩ ⟨some "abc123", 20, "", "", "", "", ""⟩
    "abc123" rfl (by decide) (by decide) (by decide)).1
  exact ⟨fls, h1, h2.trans (by rfl)⟩

/-- Counterexample to C8: a non-2xx upload response whose body parses to
status "success" takes the success path of `uploadFiles` — the success
notification is shown, navigation is scheduled, and the submit control is
not re-enabled — because the upload chain never examines the HTTP status. -/
theorem Upload.non2xx_success_body_takes_success_path :
    (Upload.handleUploadResponse
        ⟨false, 500, "Internal Server Error",
         some ⟨"success", "/configure/abc", none⟩⟩).navigatesTo =
      some "/configure/abc" ∧
    (Upload.handleUploadResponse
        ⟨false, 500, "Internal Server Error",
         some ⟨"success", "/configure/abc", none⟩⟩).note =
      ⟨"Files uploaded successfully!", "success"⟩ ∧
    (Upload.handleUploadResponse
        ⟨false, 500, "Internal Server Error",
         some ⟨"success", "/configure/abc", none⟩⟩).uploadReenabled = false := by
  exact ⟨rfl, rfl, rfl⟩

/-- C8 as amended: the upload response handler ignores the HTTP status
entirely (its outcome depends only on the parsed body, and it succeeds iff
the body parses with status field "success"), while the generation response
handler does treat every non-2xx response as a failure (error notification,
modal hidden, timer cancelled, no navigation). -/
theorem Upload.upload_ignores_http_status_generate_fails_non2xx
    (ok ok' : Bool) (s s' : Nat) (t t' : String) (b : Option ResponseBody)
    (r : HttpResponse) (hr : r.ok = false) :
    (Upload.handleUploadResponse ⟨ok, s, t, b⟩ =
      Upload.handleUploadResponse ⟨ok', s', t', b⟩) ∧
    ((Upload.handleUploadResponse ⟨ok, s, t, b⟩).navigatesTo ≠ none ↔
      ∃ data, b = some data ∧ data.status = "success") ∧
    ((Configure.handleGenerateResponse r).navigatesTo = none ∧
     (Configure.handleGenerateResponse r).note.kind = "error" ∧
     (Configure.handleGenerateResponse r).modalHidden = true ∧
     (Configure.handleGenerateResponse r).timerCancelled = true) := by
  refine ⟨rfl, ?_, ?_⟩
  · cases b with
    | none => simp [Upload.handleUploadResponse]
    | some data =>
        by_cases hd : data.status = "success" <;>
          simp [Upload.handleUploadResponse, hd]
  · simp [Configure.handleGenerateResponse, hr]

/-- Witness for C8 (amended): a 500 generation response fails and hides the
modal, even with a "success" body. -/
theorem Upload.upload_ignores_http_status_generate_fails_non2xx_witness :
    (Configure.handleGenerateResponse
        ⟨false, 500, "Internal Server Error",
         some ⟨"success", "/result/abc", none⟩⟩).navigatesTo = none ∧
    (Configure.handleGenerateResponse
        ⟨false, 500, "Internal Server Error",
         some ⟨"success", "/result/abc", none⟩⟩).modalHidden = true := by
  have h := (Upload.upload_ignores_http_status_generate_fails_non2xx
    true false 200 500 "" "Internal Server Error" none
    ⟨false, 500, "Internal Server Error", some ⟨"success", "/result/abc", none⟩⟩
    rfl).2.2
  exact ⟨h.1, h.2.2.1⟩

/-- Counterexample to C9: `removeFile(-1)` on a two-file selection is not a
no-op — `splice` interprets a negative index from the end and removes the
last file. -/
theorem Upload.removeFile_negative_index_not_noop :
    Upload.removeFile
        [⟨"a.pdf", 100, "application/pdf"⟩, ⟨"b.pdf", 200, "application/pdf"⟩]
        (-1) =
      [⟨"a.pdf", 100, "application/pdf"⟩] := by rfl

/-- C9 as amended: `removeFile(index)` is a silent no-op for `index ≥ length`
(the selection is unchanged, no error surfaced); an in-range non-negative
index removes exactly one file; a negative index is interpreted relative to
the end (clamped to position 0) and also removes exactly one file whenever
the selection is non-empty. -/
theorem Upload.removeFile_range_semantics
    (files : List Upload.JsFile) (i : Int) :
    ((files.length : Int) ≤ i → Upload.removeFile files i = files) ∧
    (0 ≤ i → i < (files.length : Int) →
      (Upload.removeFile files i).length = files.length - 1) ∧
    (i < 0 → files ≠ [] →
      (Upload.removeFile files i).length = files.length - 1) := by
  refine ⟨?_, ?_, ?_⟩
  · intro h
    have h0 : ¬ i < 0 := by omega
    have ht : (min i (files.length : Int)).toNat = files.length := by omega
    simp only [Upload.removeFile, Upload.spliceRemoveOne, if_neg h0, ht]
    rw [List.take_length, List.drop_eq_nil_of_le (by omega), List.append_nil]
  · intro h0 h1
    have hn : ¬ i < 0 := by omega
    simp only [Upload.removeFile, Upload.spliceRemoveOne, if_neg hn]
    rw [List.length_append, List.length_take, List.length_drop]
    omega
  · intro hneg hne
    have hlen : 0 < files.length := List.length_pos.mpr hne
    simp only [Upload.removeFile, Upload.spliceRemoveOne, if_pos hneg]
    rw [List.length_append, List.length_take, List.length_drop]
    omega

/-- Witness for C9 (amended): on a two-file selection, index 5 is a no-op,
index 1 removes one file, index −2 removes one file. -/
theorem Upload.removeFile_range_semantics_witness :
    Upload.removeFile [⟨"a", 1, "t"⟩, ⟨"b", 2, "t"⟩] 5 =
      [⟨"a", 1, "t"⟩, ⟨"b", 2, "t"⟩] ∧
    (Upload.removeFile [⟨"a", 1, "t"⟩, ⟨"b", 2, "t"⟩] 1).length = 1 ∧
    (Upload.removeFile [⟨"a", 1, "t"⟩, ⟨"b", 2, "t"⟩] (-2)).length = 1 := by
  refine ⟨(Upload.removeFile_range_semantics _ 5).1 (by decide),
    (Upload.removeFile_range_semantics _ 1).2.1 (by decide) (by decide),
    (Upload.removeFile_range_semantics _ (-2)).2.2 (by decide) (by decide)⟩

lemma capped_add_bounds (c p r : ℚ) (hr : 0 ≤ r) (hp : p ≤ c) :
    p ≤ (if c < p + r then c else p + r) ∧ (if c < p + r then c else p + r) ≤ c := by
  split
  · constructor <;> linarith
  · constructor <;> linarith

lemma Upload.uploadProgressStep_eq (p r : ℚ) :
    Upload.uploadProgressStep p r = if 90 < p + r then 90 else p + r := rfl

lemma Configure.generateProgressStep_eq (p r : ℚ) :
    Configure.generateProgressStep p r = if 80 < p + r then 80 else p + r := rfl

lemma Upload.runUploadTicks_go (rs : List ℚ) :
    ∀ p : ℚ, 0 ≤ p → p ≤ 90 → (∀ x ∈ rs, 0 ≤ x) →
      0 ≤ rs.foldl Upload.uploadProgressStep p ∧
        rs.foldl Upload.uploadProgressStep p ≤ 90 := by
  induction rs with
  | nil => exact fun p h0 h1 _ => ⟨h0, h1⟩
  | cons x xs ih =>
      intro p h0 h1 hrs
      have hx : 0 ≤ x := hrs x (List.mem_cons_self x xs)
      have hb := capped_add_bounds 90 p x hx h1
      rw [List.foldl_cons]
      exact ih (Upload.uploadProgressStep p x) (le_trans h0 hb.1) hb.2
        (fun y hy => hrs y (List.mem_cons_of_mem x hy))

lemma Configure.runGenerateTicks_go (rs : List ℚ) :
    ∀ p : ℚ, 0 ≤ p → p ≤ 80 → (∀ x ∈ rs, 0 ≤ x) →
      0 ≤ rs.foldl Configure.generateProgressStep p ∧
        rs.foldl Configure.generateProgressStep p ≤ 80 := by
  induction rs with
  | nil => exact fun p h0 h1 _ => ⟨h0, h1⟩
  | cons x xs ih =>
      intro p h0 h1 hrs
      have hx : 0 ≤ x := hrs x (List.mem_cons_self x xs)
      have hb := capped_add_bounds 80 p x hx h1
      rw [List.foldl_cons]
      exact ih (Configure.generateProgressStep p x) (le_trans h0 hb.1) hb.2
        (fun y hy => hrs y (List.mem_cons_of_mem x hy))

/-- Counterexample to C10: the bar is not forced to 100% on every response
arrival — a non-2xx generation response (even with a parseable "success"
body) throws before the data continuation, and an unparseable upload body
jumps straight to the catch handler; in both cases the timer is cancelled
but the bar is left unsnapped. -/
theorem Upload.bar_not_snapped_on_failed_arrival :
    (Configure.handleGenerateResponse
        ⟨false, 500, "Internal Server Error",
         some ⟨"success", "/result/xyz", none⟩⟩).barWidth = none ∧
    (Configure.handleGenerateResponse
        ⟨false, 500, "Internal Server Error",
         some ⟨"success", "/result/xyz", none⟩⟩).timerCancelled = true ∧
    (Upload.handleUploadResponse ⟨true, 200, "OK", none⟩).barWidth = none ∧
    (Upload.handleUploadResponse ⟨true, 200, "OK", none⟩).timerCancelled =
      true := by
  exact ⟨rfl, rfl, rfl, rfl⟩

/-- C10 as amended: each progress simulation is monotonically non-decreasing
per tick and never exceeds its ceiling (90 for the upload bar, increments up
to 15; 80 for the generation bar, increments up to 10); starting from 0 the
whole trace stays within the ceiling; on every terminal response outcome the
timer is cancelled; and the bar is forced to 100% exactly when a parsed body
reaches the data continuation (for generation, only after the 2xx check
passes) — on a non-2xx generation response or an unparseable body the bar is
left unsnapped. -/
theorem Upload.progress_simulation_monotone_bounded_cancelled
    (p r q : ℚ) (rs qs : List ℚ) (resp : HttpResponse)
    (hr0 : 0 ≤ r) (hr15 : r ≤ 15) (hq0 : 0 ≤ q) (hq10 : q ≤ 10)
    (hrs : ∀ x ∈ rs, 0 ≤ x ∧ x ≤ 15) (hqs : ∀ x ∈ qs, 0 ≤ x ∧ x ≤ 10) :
    (0 ≤ p → p ≤ 90 →
      p ≤ Upload.uploadProgressStep p r ∧ Upload.uploadProgressStep p r ≤ 90) ∧
    (0 ≤ Upload.runUploadTicks rs ∧ Upload.runUploadTicks rs ≤ 90) ∧
    (Upload.runUploadTicks rs ≤ Upload.runUploadTicks (rs ++ [r])) ∧
    (0 ≤ p → p ≤ 80 →
      p ≤ Configure.generateProgressStep p q ∧
        Configure.generateProgressStep p q ≤ 80) ∧
    (0 ≤ Configure.runGenerateTicks qs ∧ Configure.runGenerateTicks qs ≤ 80) ∧
    (Configure.runGenerateTicks qs ≤ Configure.runGenerateTicks (qs ++ [q])) ∧
    ((Upload.handleUploadResponse resp).timerCancelled = true) ∧
    ((Configure.handleGenerateResponse resp).timerCancelled = true) ∧
    (∀ data, resp.body = some data →
      (Upload.handleUploadResponse resp).barWidth = some 100) ∧
    (∀ data, resp.body = some data → resp.ok = true →
      (Configure.handleGenerateResponse resp).barWidth = some 100) ∧
    (resp.ok = false → (Configure.handleGenerateResponse resp).barWidth = none) ∧
    (resp.body = none → (Upload.handleUploadResponse resp).barWidth = none ∧
      (Configure.handleGenerateResponse resp).barWidth = none) := by
  have hub := Upload.runUploadTicks_go rs 0 le_rfl (by norm_num)
    (fun x hx => (hrs x hx).1)
  have hgb := Configure.runGenerateTicks_go qs 0 le_rfl (by norm_num)
    (fun x hx => (hqs x hx).1)
  refine ⟨fun h0 h1 => capped_add_bounds 90 p r hr0 h1, hub, ?_,
    fun h0 h1 => capped_add_bounds 80 p q hq0 h1, hgb, ?_, ?_, ?_, ?_, ?_, ?_, ?_⟩
  · have : Upload.runUploadTicks (rs ++ [r]) =
        Upload.uploadProgressStep (Upload.runUploadTicks rs) r := by
      simp [Upload.runUploadTicks, List.foldl_append]
    rw [this]
    exact (capped_add_bounds 90 (Upload.runUploadTicks rs) r hr0 hub.2).1
  · have : Configure.runGenerateTicks (qs ++ [q]) =
        Configure.generateProgressStep (Configure.runGenerateTicks qs) q := by
      simp [Configure.runGenerateTicks, List.foldl_append]
    rw [this]
    exact (capped_add_bounds 80 (Configure.runGenerateTicks qs) q hq0 hgb.2).1
  · cases hb : resp.body with
    | none => simp [Upload.handleUploadResponse, hb]
    | some data =>
        by_cases hd : data.status = "success" <;>
          simp [Upload.handleUploadResponse, hb, hd]
  · cases hok : resp.ok with
    | false => simp [Configure.handleGenerateResponse, hok]
    | true =>
        cases hb : resp.body with
        | none => simp [Configure.handleGenerateResponse, hok, hb]
        | some data =>
            by_cases hd : data.status = "success" <;>
              simp [Configure.handleGenerateResponse, hok, hb, hd]
  · intro data hb
    by_cases hd : data.status = "success" <;>
      simp [Upload.handleUploadResponse, hb, hd]
  · intro data hb hok
    by_cases hd : data.status = "success" <;>
      simp [Configure.handleGenerateResponse, hb, hok, hd]
  · intro hok
    simp [Configure.handleGenerateResponse, hok]
  · intro hb
    refine ⟨by simp [Upload.handleUploadResponse, hb], ?_⟩
    cases hok : resp.ok with
    | false => simp [Configure.handleGenerateResponse, hok]
    | true => simp [Configure.handleGenerateResponse, hok, hb]

/-- Witness for C10 (amended): a concrete two-tick upload trace stays within
[0, 90], and a successful parsed response cancels the timer and snaps the
bar. -/
theorem Upload.progress_simulation_monotone_bounded_cancelled_witness :
    (0 ≤ Upload.runUploadTicks [10, 15] ∧ Upload.runUploadTicks [10, 15] ≤ 90) ∧
    (Upload.handleUploadResponse
        ⟨true, 200, "OK", some ⟨"success", "/configure/abc", none⟩⟩).timerCancelled
      = true ∧
    (Upload.handleUploadResponse
        ⟨true, 200, "OK", some ⟨"success", "/configure/abc", none⟩⟩).barWidth
      = some 100 := by
  have h := Upload.progress_simulation_monotone_bounded_cancelled
    50 10 5 [10, 15] [5] ⟨true, 200, "OK", some ⟨"success", "/configure/abc", none⟩⟩
    (by norm_num) (by norm_num) (by norm_num) (by norm_num)
    (by intro x hx; fin_cases hx <;> norm_num)
    (by intro x hx; fin_cases hx <;> norm_num)
  exact ⟨h.2.1, h.2.2.2.2.2.2.2.1,
    h.2.2.2.2.2.2.2.2.1 ⟨"success", "/configure/abc", none⟩ rfl⟩
